import Mathlib

/-!
Shallow embedding of the rust-smpp SMSC core: the framed-connection driver
(src/smpp_connection.rs), the routing hub and per-connection processor
(src/smsc/smsc.rs), the logic seam error mapping (src/smsc/smsc_logic.rs)
and the message routing key (src/message_unique_key.rs).

Machine integers of the source (u32 command ids, statuses, sequence
numbers) are modelled as Nat; the values handled never approach 2^32 and
the source performs no arithmetic on them, only construction and
comparison.  HashMap fields are modelled as association lists with
unique keys, with insert and remove mirroring HashMap insert and remove.
The SmscLogic trait object is modelled as a pair of function arguments
(one per trait method); tokio IO is modelled by scripting read outcomes
and write successes as explicit input lists.
-/

/-- SMPP command status ESME_ROK. -/
def ESME_ROK : Nat := 0x00

/-- SMPP command status ESME_RINVCMDLEN. -/
def ESME_RINVCMDLEN : Nat := 0x02

/-- SMPP command status ESME_RINVCMDID. -/
def ESME_RINVCMDID : Nat := 0x03

/-- SMPP command status ESME_RSYSERR. -/
def ESME_RSYSERR : Nat := 0x08

/-- SMPP command status ESME_RINVPASWD. -/
def ESME_RINVPASWD : Nat := 0x0E

/-- EsmeId from src/smpp_connection.rs: the routing identity of a bound
client, the pair of system_id and system_type. -/
structure EsmeId where
  system_id : String
  system_type : String
deriving DecidableEq, Repr

/-- MessageUniqueKey from src/message_unique_key.rs. -/
structure MessageUniqueKey where
  namespace_id : String
  message_id : String
  destination_addr : String
deriving DecidableEq, Repr

/-- BindData of the codec (smpp_pdu crate): the fields of a bind request
body that the core reads.  Modelled from the spec: the codec is external;
only the fields the core consumes appear. -/
structure BindData where
  system_id : String
  password : String
  system_type : String
deriving DecidableEq, Repr

/-- DeliverSmPdu body of the codec.  Modelled from the spec: the codec is
external; source_addr is the accessor the core calls, and
receipted_message_id holds what extract_receipted_message_id yields. -/
structure DeliverSmPdu where
  source_addr : String
  receipted_message_id : Option String
deriving DecidableEq, Repr

/-- The extract_receipted_message_id helper of the codec, which the core
calls on a DR body.  Modelled from the spec: yields the receipted message
id TLV when present. -/
def DeliverSmPdu.extract_receipted_message_id (pdu : DeliverSmPdu) :
    Option String :=
  pdu.receipted_message_id

/-- SubmitSmPdu body of the codec.  Modelled from the spec: opaque to the
core, which passes it to the logic seam; one representative field. -/
structure SubmitSmPdu where
  destination_addr : String
deriving DecidableEq, Repr

/-- SubmitSmRespPdu body of the codec: either a normal body carrying a
message id (SubmitSmRespPdu::new) or the error-body form
(SubmitSmRespPdu::new_error). -/
inductive SubmitSmRespPdu where
  | normal (message_id : String)
  | errorBody
deriving DecidableEq, Repr

/-- A bind response body of the codec: either the normal form carrying the
configured system_id (BindXxxRespPdu::new) or the error-body form
(BindXxxRespPdu::new_error). -/
inductive BindRespBody where
  | ok (system_id : String)
  | errorBody
deriving DecidableEq, Repr

/-- The tagged PDU body variants the core recognises
(match arms of handle_pdu and receive_pdu); Other covers every
unrecognised kind, tagged with its command_id. -/
inductive PduBody where
  | BindReceiver (body : BindData)
  | BindTransmitter (body : BindData)
  | BindTransceiver (body : BindData)
  | BindReceiverResp (body : BindRespBody)
  | BindTransmitterResp (body : BindRespBody)
  | BindTransceiverResp (body : BindRespBody)
  | EnquireLink
  | EnquireLinkResp
  | SubmitSm (body : SubmitSmPdu)
  | SubmitSmResp (body : SubmitSmRespPdu)
  | DeliverSm (body : DeliverSmPdu)
  | DeliverSmResp
  | GenericNack
  | Other (command_id : Nat)
deriving DecidableEq, Repr

/-- The SMPP command_id of a body (section 6 of the wire protocol; Other
carries its own). -/
def PduBody.command_id : PduBody → Nat
  | PduBody.BindReceiver _ => 0x00000001
  | PduBody.BindTransmitter _ => 0x00000002
  | PduBody.BindTransceiver _ => 0x00000009
  | PduBody.BindReceiverResp _ => 0x80000001
  | PduBody.BindTransmitterResp _ => 0x80000002
  | PduBody.BindTransceiverResp _ => 0x80000009
  | PduBody.EnquireLink => 0x00000015
  | PduBody.EnquireLinkResp => 0x80000015
  | PduBody.SubmitSm _ => 0x00000004
  | PduBody.SubmitSmResp _ => 0x80000004
  | PduBody.DeliverSm _ => 0x00000005
  | PduBody.DeliverSmResp => 0x80000005
  | PduBody.GenericNack => 0x80000000
  | PduBody.Other command_id => command_id

/-- A parsed PDU: command_status, sequence_number and tagged body
(Pdu::new of the codec, modelled as total construction). -/
structure Pdu where
  command_status : Nat
  sequence_number : Nat
  body : PduBody
deriving DecidableEq, Repr

/-- The command_id accessor of a PDU. -/
def Pdu.command_id (pdu : Pdu) : Nat := pdu.body.command_id

/-- The kind of a codec parse failure.  Modelled from the spec: the codec
is external; NotEnoughBytes is the kind the connection driver itself
constructs, and CodecStatus abstracts every other kind by the SMPP status
the codec reports for it. -/
inductive PduParseErrorBody where
  | NotEnoughBytes
  | CodecStatus (status : Nat)
deriving DecidableEq, Repr

/-- PduParseError of the codec: optional command_id, optional
sequence_number, and an error kind. -/
structure PduParseError where
  command_id : Option Nat
  sequence_number : Option Nat
  body : PduParseErrorBody
deriving DecidableEq, Repr

/-- PduParseError::new of the codec: no command_id, no sequence_number. -/
def PduParseError.new (body : PduParseErrorBody) : PduParseError :=
  { command_id := none, sequence_number := none, body := body }

/-- The status accessor of a parse error.  Modelled from the spec: the
codec maps each error kind to an SMPP status; an invalid or truncated
frame reports ESME_RINVCMDLEN, and abstract kinds report their carried
code. -/
def PduParseError.status (e : PduParseError) : Nat :=
  match e.body with
  | PduParseErrorBody.NotEnoughBytes => ESME_RINVCMDLEN
  | PduParseErrorBody.CodecStatus status => status

/-- BindError from src/smsc/smsc_logic.rs. -/
inductive BindError where
  | IncorrectPassword
  | InternalError
deriving DecidableEq, Repr

/-- The From BindError for PduStatus impl in src/smsc/smsc_logic.rs. -/
def BindError.toPduStatus : BindError → Nat
  | BindError.IncorrectPassword => ESME_RINVPASWD
  | BindError.InternalError => ESME_RSYSERR

/-- SubmitSmError from src/smsc/smsc_logic.rs. -/
inductive SubmitSmError where
  | InternalError
deriving DecidableEq, Repr

/-- The From SubmitSmError for PduStatus impl in src/smsc/smsc_logic.rs. -/
def SubmitSmError.toPduStatus : SubmitSmError → Nat
  | SubmitSmError.InternalError => ESME_RSYSERR

/-- Per-connection state of SmppConnection (src/smpp_connection.rs):
conn_id stands for the identity of the Arc pointer, read_open and
write_open for whether each half is still present in its Mutex Option,
and bound_esme_id for the bound_esme_id field. -/
structure SmppConnection where
  conn_id : Nat
  read_open : Bool
  write_open : Bool
  bound_esme_id : Option EsmeId
deriving DecidableEq, Repr

/-- SmppConnection::new: both halves present, no bound EsmeId. -/
def SmppConnection.new (conn_id : Nat) : SmppConnection :=
  { conn_id := conn_id, read_open := true, write_open := true,
    bound_esme_id := none }

/-- SmppConnection::bind: Option::replace on bound_esme_id, storing the
EsmeId built from the supplied system_id and system_type. -/
def SmppConnection.bind (c : SmppConnection)
    (system_id : String) (system_type : String) : SmppConnection :=
  { c with
    bound_esme_id := some ⟨system_id, system_type⟩ }

/-- SmppConnection::disconnect: takes both halves out of their locks. -/
def SmppConnection.disconnect (c : SmppConnection) : SmppConnection :=
  { c with read_open := false, write_open := false }

/-- Lookup in an association list modelling HashMap::get. -/
def lookupA {α β : Type} [DecidableEq α] : List (α × β) → α → Option β
  | [], _ => none
  | (k, v) :: rest, a => if k = a then some v else lookupA rest a

/-- Removal from an association list modelling HashMap::remove (keys are
unique in every list the model builds, so filtering equals removing the
single entry). -/
def eraseA {α β : Type} [DecidableEq α] (a : α) (m : List (α × β)) :
    List (α × β) :=
  m.filter (fun p => decide (p.1 ≠ a))

/-- Insertion into an association list modelling HashMap::insert
(insert or replace; keeps keys unique). -/
def insertA {α β : Type} [DecidableEq α] (a : α) (b : β)
    (m : List (α × β)) : List (α × β) :=
  (a, b) :: eraseA a m

/-- The routing hub Smsc (src/smsc/smsc.rs): the connections map
EsmeId to connection and the messages map MessageUniqueKey to EsmeId. -/
structure Smsc where
  connections : List (EsmeId × SmppConnection)
  messages : List (MessageUniqueKey × EsmeId)
deriving DecidableEq, Repr

/-- The empty hub state built by Smsc::start. -/
def Smsc.start_state : Smsc := { connections := [], messages := [] }

/-- Smsc::add_connection: insert under the bound EsmeId when present,
log and ignore otherwise. -/
def Smsc.add_connection (s : Smsc) (connection : SmppConnection) : Smsc :=
  match connection.bound_esme_id with
  | some esme_id =>
      { s with connections := insertA esme_id connection s.connections }
  | none => s

/-- Smsc::remove_connection: disconnect the connection, then remove the
entry stored under its bound EsmeId when it has one.  Returns the new hub
and the disconnected connection. -/
def Smsc.remove_connection (s : Smsc) (connection : SmppConnection) :
    Smsc × SmppConnection :=
  let c := connection.disconnect
  match c.bound_esme_id with
  | some esme_id =>
      ({ s with connections := eraseA esme_id s.connections }, c)
  | none => (s, c)

/-- Smsc::add_message: unconditional insert or overwrite. -/
def Smsc.add_message (s : Smsc) (message_unique_key : MessageUniqueKey)
    (esme_id : EsmeId) : Smsc :=
  { s with messages := insertA message_unique_key esme_id s.messages }

/-- Smsc::connection_for_message: key to EsmeId, then EsmeId to
connection; either step missing is an error naming the missing field. -/
def Smsc.connection_for_message (s : Smsc)
    (message_unique_key : MessageUniqueKey) :
    Except String SmppConnection :=
  match lookupA s.messages message_unique_key with
  | some esme_id =>
      match lookupA s.connections esme_id with
      | some connection => Except.ok connection
      | none =>
          Except.error
            ("No client connection found with system_id=" ++
              esme_id.system_id ++ " system_type=" ++
              esme_id.system_type ++ ".")
  | none =>
      Except.error
        ("No record found of message with namespaceId=" ++
          message_unique_key.namespace_id ++ ", message_id=" ++
          message_unique_key.message_id ++ ", destination_addr=" ++
          message_unique_key.destination_addr)

/-- MessageUniqueKey::from_dr: destination_addr of the key is the DR
source_addr; fails when no receipted message id can be extracted. -/
def MessageUniqueKey.from_dr (namespace_id : String)
    (pdu : DeliverSmPdu) : Option MessageUniqueKey :=
  let destination_addr := pdu.source_addr
  let message_id := pdu.extract_receipted_message_id
  message_id.map (fun message_id =>
    { namespace_id := namespace_id, message_id := message_id,
      destination_addr := destination_addr })

/-- Smsc::receive_pdu: only deliver_sm is accepted; the routing key is
rebuilt from the DR; on a route hit the PDU write is scheduled on the
target connection (modelled as returning the target and the PDU). -/
def Smsc.receive_pdu (s : Smsc) (namespace_id : String) (pdu : Pdu) :
    Except String (SmppConnection × Pdu) :=
  match pdu.body with
  | PduBody.DeliverSm body =>
      match MessageUniqueKey.from_dr namespace_id body with
      | some message_unique_key =>
          match s.connection_for_message message_unique_key with
          | Except.ok conn => Except.ok (conn, pdu)
          | Except.error e => Except.error e
      | none =>
          Except.error "Could not extract message ID from supplied PDU."
  | _ =>
      Except.error
        "Unexpected PDU type.  Currently we can only handle deliver_sm PDUs."

/-- ProcessError from src/smsc/smsc.rs (the IO error payload is dropped:
the core only propagates it). -/
inductive ProcessError where
  | PduParseFailure (e : PduParseError)
  | UnexpectedPduType (command_id : Nat) (sequence_number : Nat)
  | ConnectionNotBoundAsTransmitter
  | IoError
  | InternalError (message : String)
deriving DecidableEq, Repr

/-- handle_pdu_parse_error from src/smsc/smsc.rs: default the sequence
number to 1, answer a bind_transmitter_resp error body for command_id
0x00000002, a generic_nack for every known or unknown other id. -/
def handle_pdu_parse_error (error : PduParseError) : Pdu :=
  let sequence_number := error.sequence_number.getD 1
  match error.command_id with
  | some 0x00000002 =>
      Pdu.mk error.status sequence_number
        (PduBody.BindTransmitterResp BindRespBody.errorBody)
  | some _ =>
      Pdu.mk error.status sequence_number PduBody.GenericNack
  | none =>
      Pdu.mk error.status sequence_number PduBody.GenericNack

/-- The type of the logic seam bind method (SmscLogic::bind), modelled as
a function argument. -/
def BindLogic : Type := BindData → Except BindError Unit

/-- The type of the logic seam submit_sm method (SmscLogic::submit_sm),
modelled as a function argument (the hub handle and sequence number the
source forwards do not influence the core path modelled here). -/
def SubmitLogic : Type :=
  SubmitSmPdu → Except SubmitSmError (SubmitSmRespPdu × MessageUniqueKey)

/-- handle_bind_pdu from src/smsc/smsc.rs.  For each of the three bind
request kinds, invoke the logic; Ok yields the matching resp carrying the
configured system_id and status ESME_ROK, Err yields the matching resp
error body and the mapped status.  Only on ESME_ROK the connection binds
and is added to the hub.  Returns the response PDU, the connection and
the hub after the call. -/
def handle_bind_pdu (logicBind : BindLogic) (pdu : Pdu)
    (connection : SmppConnection) (config_system_id : String)
    (smsc : Smsc) :
    Except ProcessError (Pdu × SmppConnection × Smsc) :=
  let outcome : Except ProcessError (BindData × PduBody × Nat) :=
    match pdu.body with
    | PduBody.BindReceiver body =>
        (match logicBind body with
         | Except.ok _ =>
             Except.ok (body,
               PduBody.BindReceiverResp (BindRespBody.ok config_system_id),
               ESME_ROK)
         | Except.error e =>
             Except.ok (body,
               PduBody.BindReceiverResp BindRespBody.errorBody,
               e.toPduStatus))
    | PduBody.BindTransceiver body =>
        (match logicBind body with
         | Except.ok _ =>
             Except.ok (body,
               PduBody.BindTransceiverResp (BindRespBody.ok config_system_id),
               ESME_ROK)
         | Except.error e =>
             Except.ok (body,
               PduBody.BindTransceiverResp BindRespBody.errorBody,
               e.toPduStatus))
    | PduBody.BindTransmitter body =>
        (match logicBind body with
         | Except.ok _ =>
             Except.ok (body,
               PduBody.BindTransmitterResp (BindRespBody.ok config_system_id),
               ESME_ROK)
         | Except.error e =>
             Except.ok (body,
               PduBody.BindTransmitterResp BindRespBody.errorBody,
               e.toPduStatus))
    | _ =>
        Except.error
          (ProcessError.InternalError
            "handle_bind_pdu called with non-bind PDU!")
  match outcome with
  | Except.error e => Except.error e
  | Except.ok (bind_data, ret_body, command_status) =>
      if command_status = ESME_ROK then
        let connection :=
          connection.bind bind_data.system_id bind_data.system_type
        let smsc := smsc.add_connection connection
        Except.ok
          (Pdu.mk command_status pdu.sequence_number ret_body,
            connection, smsc)
      else
        Except.ok
          (Pdu.mk command_status pdu.sequence_number ret_body,
            connection, smsc)

/-- handle_submit_sm_pdu from src/smsc/smsc.rs: only on a connection with
a bound EsmeId; logic Ok records the routing key under that EsmeId and
answers the returned resp with ESME_ROK, logic Err answers the resp error
body with the mapped status and records nothing; an unbound connection is
a ConnectionNotBoundAsTransmitter process error. -/
def handle_submit_sm_pdu (logicSubmit : SubmitLogic) (body : SubmitSmPdu)
    (sequence_number : Nat) (connection : SmppConnection) (smsc : Smsc) :
    Except ProcessError (Pdu × Smsc) :=
  match connection.bound_esme_id with
  | some esme_id =>
      (match logicSubmit body with
       | Except.ok (resp, message_unique_key) =>
           Except.ok
             (Pdu.mk ESME_ROK sequence_number (PduBody.SubmitSmResp resp),
               smsc.add_message message_unique_key esme_id)
       | Except.error e =>
           Except.ok
             (Pdu.mk e.toPduStatus sequence_number
               (PduBody.SubmitSmResp SubmitSmRespPdu.errorBody), smsc))
  | none => Except.error ProcessError.ConnectionNotBoundAsTransmitter

/-- handle_pdu from src/smsc/smsc.rs: dispatch on the body kind; bind
kinds go to handle_bind_pdu, enquire_link is answered locally with
ESME_ROK, submit_sm goes to handle_submit_sm_pdu, everything else is an
UnexpectedPduType process error. -/
def handle_pdu (logicBind : BindLogic) (logicSubmit : SubmitLogic)
    (pdu : Pdu) (connection : SmppConnection) (config_system_id : String)
    (smsc : Smsc) :
    Except ProcessError (Pdu × SmppConnection × Smsc) :=
  let sequence_number := pdu.sequence_number
  match pdu.body with
  | PduBody.BindReceiver _ =>
      handle_bind_pdu logicBind pdu connection config_system_id smsc
  | PduBody.BindTransmitter _ =>
      handle_bind_pdu logicBind pdu connection config_system_id smsc
  | PduBody.BindTransceiver _ =>
      handle_bind_pdu logicBind pdu connection config_system_id smsc
  | PduBody.EnquireLink =>
      Except.ok
        (Pdu.mk ESME_ROK pdu.sequence_number PduBody.EnquireLinkResp,
          connection, smsc)
  | PduBody.SubmitSm body =>
      (match handle_submit_sm_pdu logicSubmit body sequence_number
          connection smsc with
       | Except.ok (resp, smsc) => Except.ok (resp, connection, smsc)
       | Except.error e => Except.error e)
  | _ =>
      Except.error
        (ProcessError.UnexpectedPduType pdu.command_id
          pdu.sequence_number)

/-- One scripted outcome of connection.read_pdu() in the processing loop,
together with whether the write the loop performs in reaction succeeds
(the scripted result of the tokio write). -/
inductive ReadEvent where
  | parseErr (e : PduParseError) (write_ok : Bool)
  | closed
  | pduRead (p : Pdu) (write_ok : Bool)
deriving DecidableEq, Repr

/-- An observable action of a connection processing task: a PDU written
to the socket, or a remove_connection performed on the hub for the named
connection. -/
inductive Event where
  | Wrote (pdu : Pdu)
  | RemovedConnection (conn_id : Nat)
deriving DecidableEq, Repr

/-- Result of the processing loop: the events it performed, the loop exit
(Ok false = client closed; none when the script ran out while the loop
would keep reading), and the final connection and hub states. -/
def LoopOutcome : Type :=
  List Event × Option (Except ProcessError Bool) × SmppConnection × Smsc

/-- process_loop from src/smsc/smsc.rs over a script of read outcomes:
a clean close exits Ok(false); a parse error writes the
handle_pdu_parse_error response then exits with the error; a parsed PDU
goes to handle_pdu, whose Ok response is written before the next read and
whose Err is answered with a generic_nack carrying ESME_RINVCMDID and the
request sequence_number before exiting with the error; a failed write
exits with the IO error. -/
def process_loop (logicBind : BindLogic) (logicSubmit : SubmitLogic)
    (config_system_id : String) :
    SmppConnection → Smsc → List ReadEvent → LoopOutcome
  | connection, smsc, [] => ([], none, connection, smsc)
  | connection, smsc, ReadEvent.closed :: _ =>
      ([], some (Except.ok false), connection, smsc)
  | connection, smsc, ReadEvent.parseErr e write_ok :: _ =>
      let response := handle_pdu_parse_error e
      if write_ok then
        ([Event.Wrote response],
          some (Except.error (ProcessError.PduParseFailure e)),
          connection, smsc)
      else
        ([], some (Except.error ProcessError.IoError), connection, smsc)
  | connection, smsc, ReadEvent.pduRead p write_ok :: rest =>
      let sequence_number := p.sequence_number
      match handle_pdu logicBind logicSubmit p connection
          config_system_id smsc with
      | Except.ok (response, connection, smsc) =>
          if write_ok then
            let r :=
              process_loop logicBind logicSubmit config_system_id
                connection smsc rest
            (Event.Wrote response :: r.1, r.2.1, r.2.2.1, r.2.2.2)
          else
            ([], some (Except.error ProcessError.IoError),
              connection, smsc)
      | Except.error e =>
          let nack :=
            Pdu.mk ESME_RINVCMDID sequence_number PduBody.GenericNack
          if write_ok then
            ([Event.Wrote nack], some (Except.error e), connection, smsc)
          else
            ([], some (Except.error ProcessError.IoError),
              connection, smsc)

/-- process from src/smsc/smsc.rs: runs process_loop under a
DisconnectGuard whose drop performs Smsc::remove_connection when the loop
exits, whatever the exit path.  When the script is too short to exit the
loop the guard has not fired yet and the outcome is returned as is. -/
def process (logicBind : BindLogic) (logicSubmit : SubmitLogic)
    (config_system_id : String) (connection : SmppConnection)
    (smsc : Smsc) (reads : List ReadEvent) : LoopOutcome :=
  let r :=
    process_loop logicBind logicSubmit config_system_id connection smsc
      reads
  match r.2.1 with
  | none => r
  | some outcome =>
      let pair := r.2.2.2.remove_connection r.2.2.1
      (r.1 ++ [Event.RemovedConnection r.2.2.1.conn_id], some outcome,
        pair.2, pair.1)

/-- Outcome of the codec two-phase check (Pdu::check): a full PDU of the
returned length is buffered, or more bytes are needed. -/
inductive CheckOutcome where
  | Ready (len : Nat)
  | Incomplete
deriving DecidableEq, Repr

/-- The codec primitives the framed connection consumes (Pdu::check and
Pdu::parse).  Modelled from the spec: the codec is external; check
inspects the buffered bytes and parse decodes them from the start. -/
structure Codec where
  check : List Nat → Except PduParseError CheckOutcome
  parse : List Nat → Except PduParseError Pdu

/-- SmppRead::parse_pdu from src/smpp_connection.rs: check the buffer; on
Ready parse from the start and consume len bytes, on Incomplete yield
nothing, on a check or parse error surface it. -/
def SmppRead.parse_pdu (codec : Codec) (buffer : List Nat) :
    Except PduParseError (Option (Pdu × List Nat)) :=
  match codec.check buffer with
  | Except.ok (CheckOutcome.Ready len) =>
      (match codec.parse buffer with
       | Except.ok pdu => Except.ok (some (pdu, buffer.drop len))
       | Except.error e => Except.error e)
  | Except.ok CheckOutcome.Incomplete => Except.ok none
  | Except.error e => Except.error e

/-- SmppConnection::read_pdu from src/smpp_connection.rs, over the read
buffer and the script of byte chunks the socket will yield (an exhausted
script is the socket returning zero bytes): parse what is buffered; if
incomplete and the socket yields zero bytes, a clean close on an empty
buffer is None and a non-empty buffer is a NotEnoughBytes error;
otherwise append the chunk and retry. -/
def read_pdu (codec : Codec) :
    List Nat → List (List Nat) → Except PduParseError (Option Pdu)
  | buffer, [] =>
      (match SmppRead.parse_pdu codec buffer with
       | Except.error e => Except.error e
       | Except.ok (some (pdu, _)) => Except.ok (some pdu)
       | Except.ok none =>
           if buffer.isEmpty then Except.ok none
           else
             Except.error
               (PduParseError.new PduParseErrorBody.NotEnoughBytes))
  | buffer, c :: rest =>
      (match SmppRead.parse_pdu codec buffer with
       | Except.error e => Except.error e
       | Except.ok (some (pdu, _)) => Except.ok (some pdu)
       | Except.ok none => read_pdu codec (buffer ++ c) rest)

/-- The read loop reaches a zero-byte read with an empty buffer: no
buffered PDU at any step, and the script runs out exactly when the buffer
is empty. -/
def zeroReadOnEmptyBuffer (codec : Codec) :
    List Nat → List (List Nat) → Bool
  | buffer, [] =>
      (match SmppRead.parse_pdu codec buffer with
       | Except.ok none => buffer.isEmpty
       | _ => false)
  | buffer, c :: rest =>
      (match SmppRead.parse_pdu codec buffer with
       | Except.ok none => zeroReadOnEmptyBuffer codec (buffer ++ c) rest
       | _ => false)

/-- The read loop reaches a zero-byte read with a non-empty buffer. -/
def zeroReadOnNonEmptyBuffer (codec : Codec) :
    List Nat → List (List Nat) → Bool
  | buffer, [] =>
      (match SmppRead.parse_pdu codec buffer with
       | Except.ok none => !buffer.isEmpty
       | _ => false)
  | buffer, c :: rest =>
      (match SmppRead.parse_pdu codec buffer with
       | Except.ok none => zeroReadOnNonEmptyBuffer codec (buffer ++ c) rest
       | _ => false)

/-- One operation on the hub state, as callable on the shared Smsc. -/
inductive HubOp where
  | AddConnection (c : SmppConnection)
  | RemoveConnection (c : SmppConnection)
  | AddMessage (k : MessageUniqueKey) (e : EsmeId)
deriving Repr

/-- Apply one hub operation. -/
def Smsc.apply_op (s : Smsc) : HubOp → Smsc
  | HubOp.AddConnection c => s.add_connection c
  | HubOp.RemoveConnection c => (s.remove_connection c).1
  | HubOp.AddMessage k e => s.add_message k e

/-- Apply a sequence of hub operations in order. -/
def Smsc.apply_ops (s : Smsc) (ops : List HubOp) : Smsc :=
  ops.foldl Smsc.apply_op s

/-- Fold SmppConnection::bind over a list of (system_id, system_type)
pairs, modelling successive successful binds on one connection. -/
def bind_seq (c : SmppConnection) (l : List (String × String)) :
    SmppConnection :=
  l.foldl (fun c p => c.bind p.1 p.2) c

/-- Recognised request kinds of handle_pdu: everything else falls to the
UnexpectedPduType arm. -/
def PduBody.is_handled : PduBody → Bool
  | PduBody.BindReceiver _ => true
  | PduBody.BindTransmitter _ => true
  | PduBody.BindTransceiver _ => true
  | PduBody.EnquireLink => true
  | PduBody.SubmitSm _ => true
  | _ => false

/-- Statement helper: the resp error body matching each bind request
kind (identity elsewhere). -/
def bind_error_resp_body : PduBody → PduBody
  | PduBody.BindReceiver _ =>
      PduBody.BindReceiverResp BindRespBody.errorBody
  | PduBody.BindTransmitter _ =>
      PduBody.BindTransmitterResp BindRespBody.errorBody
  | PduBody.BindTransceiver _ =>
      PduBody.BindTransceiverResp BindRespBody.errorBody
  | b => b

/-- Whether an event is a remove_connection. -/
def Event.isRemove : Event → Bool
  | Event.RemovedConnection _ => true
  | _ => false

theorem eraseA_cons {α β : Type} [DecidableEq α] (k : α) (v : β)
    (rest : List (α × β)) (a : α) :
    eraseA a ((k, v) :: rest) =
      if k = a then eraseA a rest else (k, v) :: eraseA a rest := by
  by_cases h : k = a <;> simp [eraseA, List.filter_cons, h]

theorem lookupA_insertA_self {α β : Type} [DecidableEq α] (a : α) (b : β)
    (m : List (α × β)) : lookupA (insertA a b m) a = some b := by
  simp [insertA, lookupA]

theorem lookupA_eraseA_self {α β : Type} [DecidableEq α] (a : α)
    (m : List (α × β)) : lookupA (eraseA a m) a = none := by
  induction m with
  | nil => rfl
  | cons p rest ih =>
      rcases p with ⟨k, v⟩
      rw [eraseA_cons]
      by_cases h : k = a
      · simp [h, ih]
      · simp [lookupA, h, ih]

theorem mem_eraseA {α β : Type} [DecidableEq α] {a : α}
    {m : List (α × β)} {p : α × β} (h : p ∈ eraseA a m) : p ∈ m :=
  List.mem_of_mem_filter h

theorem mem_insertA {α β : Type} [DecidableEq α] {a : α} {b : β}
    {m : List (α × β)} {p : α × β} (h : p ∈ insertA a b m) :
    p = (a, b) ∨ p ∈ m := by
  rcases List.mem_cons.mp h with h | h
  · exact Or.inl h
  · exact Or.inr (mem_eraseA h)

/-- Every connection stored in the hub connections map is a bound
connection keyed by its own bound EsmeId. -/
def conn_inv (s : Smsc) : Prop :=
  ∀ p ∈ s.connections, p.2.bound_esme_id = some p.1

theorem conn_inv_apply_op {s : Smsc} (h : conn_inv s) (op : HubOp) :
    conn_inv (s.apply_op op) := by
  cases op with
  | AddConnection c =>
      rcases hc : c.bound_esme_id with _ | e
      · simpa [Smsc.apply_op, Smsc.add_connection, hc] using h
      · intro p hp
        simp only [Smsc.apply_op, Smsc.add_connection, hc] at hp
        rcases mem_insertA hp with rfl | hp
        · exact hc
        · exact h p hp
  | RemoveConnection c =>
      intro p hp
      rcases hc : c.bound_esme_id with _ | e
      · simp only [Smsc.apply_op, Smsc.remove_connection,
          SmppConnection.disconnect, hc] at hp
        exact h p hp
      · simp only [Smsc.apply_op, Smsc.remove_connection,
          SmppConnection.disconnect, hc] at hp
        exact h p (mem_eraseA hp)
  | AddMessage k e =>
      intro p hp
      simp only [Smsc.apply_op, Smsc.add_message] at hp
      exact h p hp

theorem conn_inv_apply_ops {s : Smsc} (h : conn_inv s)
    (ops : List HubOp) : conn_inv (s.apply_ops ops) := by
  induction ops generalizing s with
  | nil => exact h
  | cons op rest ih => exact ih (conn_inv_apply_op h op)

theorem bind_seq_bound_esme_id (c : SmppConnection)
    (l : List (String × String)) :
    (bind_seq c l).bound_esme_id =
      match l.getLast? with
      | some p => some (EsmeId.mk p.1 p.2)
      | none => c.bound_esme_id := by
  induction l generalizing c with
  | nil => rfl
  | cons a t ih =>
      cases t with
      | nil => simp [bind_seq, SmppConnection.bind]
      | cons b t2 =>
          have := ih (c.bind a.1 a.2)
          simpa [bind_seq, List.getLast?_cons_cons] using this

theorem process_loop_no_remove (lb : BindLogic) (ls : SubmitLogic)
    (sid : String) :
    ∀ (reads : List ReadEvent) (conn : SmppConnection) (smsc : Smsc),
      ∀ ev ∈ (process_loop lb ls sid conn smsc reads).1,
        Event.isRemove ev = false := by
  intro reads
  induction reads with
  | nil => intro conn smsc ev hev; simp [process_loop] at hev
  | cons r rest ih =>
      intro conn smsc ev hev
      cases r with
      | closed => simp [process_loop] at hev
      | parseErr e wok =>
          cases wok with
          | false => simp [process_loop] at hev
          | true =>
              simp [process_loop] at hev
              subst hev
              rfl
      | pduRead p wok =>
          rcases hh : handle_pdu lb ls p conn sid smsc with e | res
          · cases wok with
            | false => simp [process_loop, hh] at hev
            | true =>
                simp [process_loop, hh] at hev
                subst hev
                rfl
          · rcases res with ⟨resp, conn2, smsc2⟩
            cases wok with
            | false => simp [process_loop, hh] at hev
            | true =>
                simp [process_loop, hh] at hev
                rcases hev with rfl | hev
                · rfl
                · exact ih conn2 smsc2 ev hev

/-- C1 (amended): on every connection, bound_esme_id is absent until the
first successful bind and is never cleared, but each further successful
bind overwrites it (Option::replace), so after a sequence of successful
binds it holds the EsmeId of the LAST bind, not the first. -/
theorem C1_bound_esme_id_lifecycle (conn_id : Nat)
    (l : List (String × String)) :
    ((bind_seq (SmppConnection.new conn_id) l).bound_esme_id =
      match l.getLast? with
      | some p => some (EsmeId.mk p.1 p.2)
      | none => none)
    ∧ (∀ (c : SmppConnection) (system_id system_type : String),
        ((c.bind system_id system_type).bound_esme_id).isSome = true)
    ∧ (∀ c : SmppConnection,
        (c.disconnect).bound_esme_id = c.bound_esme_id) := by
  refine ⟨?_, ?_, ?_⟩
  · have h := bind_seq_bound_esme_id (SmppConnection.new conn_id) l
    simpa [SmppConnection.new] using h
  · intro c system_id system_type
    rfl
  · intro c
    rfl

/-- C1 counterexample: a connection bound successfully as
(first, t) through handle_bind_pdu and then bound successfully a second
time as (second, t) ends with bound_esme_id = some (second, t), not the
EsmeId recorded by the first successful bind. -/
theorem C1_second_bind_overwrites :
    ((handle_bind_pdu (fun _ => Except.ok ())
        (Pdu.mk 0 1 (PduBody.BindTransmitter (BindData.mk "first" "pw" "t")))
        (SmppConnection.new 0) "TestServer" Smsc.start_state).map
          (fun r => r.2.1)
      = Except.ok (SmppConnection.mk 0 true true
          (some (EsmeId.mk "first" "t"))))
    ∧ ((handle_bind_pdu (fun _ => Except.ok ())
        (Pdu.mk 0 2 (PduBody.BindTransmitter (BindData.mk "second" "pw" "t")))
        (SmppConnection.mk 0 true true (some (EsmeId.mk "first" "t")))
        "TestServer"
        (Smsc.mk [(EsmeId.mk "first" "t",
          SmppConnection.mk 0 true true (some (EsmeId.mk "first" "t")))]
          [])).map (fun r => r.2.1.bound_esme_id)
      = Except.ok (some (EsmeId.mk "second" "t")))
    ∧ some (EsmeId.mk "second" "t") ≠ some (EsmeId.mk "first" "t") := by
  refine ⟨by rfl, by rfl, by decide⟩

/-- C2: on a bound connection, a submit_sm whose logic call returns Ok
records the routing key under the connection EsmeId in the hub messages
map and exactly one submit_sm_resp with ESME_ROK and the request
sequence_number is written before the next read; a logic Err answers
exactly one submit_sm_resp error body with ESME_RSYSERR and the same
sequence_number and records nothing. -/
theorem C2_submit_sm_on_bound_connection (lb : BindLogic)
    (ls : SubmitLogic) (sid : String) (body : SubmitSmPdu)
    (conn : SmppConnection) (smsc : Smsc) (esme_id : EsmeId) (p : Pdu)
    (rest : List ReadEvent)
    (hbound : conn.bound_esme_id = some esme_id)
    (hbody : p.body = PduBody.SubmitSm body) :
    (∀ resp key, ls body = Except.ok (resp, key) →
      handle_submit_sm_pdu ls body p.sequence_number conn smsc
        = Except.ok
            (Pdu.mk ESME_ROK p.sequence_number (PduBody.SubmitSmResp resp),
              smsc.add_message key esme_id)
      ∧ lookupA (smsc.add_message key esme_id).messages key = some esme_id
      ∧ process_loop lb ls sid conn smsc (ReadEvent.pduRead p true :: rest)
          = (Event.Wrote
                (Pdu.mk ESME_ROK p.sequence_number
                  (PduBody.SubmitSmResp resp))
              :: (process_loop lb ls sid conn
                    (smsc.add_message key esme_id) rest).1,
             (process_loop lb ls sid conn
                (smsc.add_message key esme_id) rest).2))
    ∧ (∀ e, ls body = Except.error e →
      handle_submit_sm_pdu ls body p.sequence_number conn smsc
        = Except.ok
            (Pdu.mk ESME_RSYSERR p.sequence_number
              (PduBody.SubmitSmResp SubmitSmRespPdu.errorBody), smsc)
      ∧ process_loop lb ls sid conn smsc (ReadEvent.pduRead p true :: rest)
          = (Event.Wrote
                (Pdu.mk ESME_RSYSERR p.sequence_number
                  (PduBody.SubmitSmResp SubmitSmRespPdu.errorBody))
              :: (process_loop lb ls sid conn smsc rest).1,
             (process_loop lb ls sid conn smsc rest).2)) := by
  rcases p with ⟨cs, sq, pbody⟩
  simp only [Pdu.body] at hbody
  subst hbody
  constructor
  · intro resp key hls
    have hsub : handle_submit_sm_pdu ls body sq conn smsc
        = Except.ok
            (Pdu.mk ESME_ROK sq (PduBody.SubmitSmResp resp),
              smsc.add_message key esme_id) := by
      simp [handle_submit_sm_pdu, hbound, hls]
    refine ⟨hsub, lookupA_insertA_self key esme_id smsc.messages, ?_⟩
    simp [process_loop, handle_pdu, hsub]
  · intro e hls
    have hsub : handle_submit_sm_pdu ls body sq conn smsc
        = Except.ok
            (Pdu.mk ESME_RSYSERR sq
              (PduBody.SubmitSmResp SubmitSmRespPdu.errorBody), smsc) := by
      cases e
      simp [handle_submit_sm_pdu, hbound, hls, SubmitSmError.toPduStatus]
    refine ⟨hsub, ?_⟩
    simp [process_loop, handle_pdu, hsub]

/-- C3: the response to a parse error carries the error status, the error
sequence_number defaulted to 1, and is a bind_transmitter_resp error body
exactly when the error command_id is 0x00000002 and a generic_nack in
every other case (known other id or unknown id); the loop writes exactly
that response and then terminates with the parse error. -/
theorem C3_parse_error_response (e : PduParseError) (lb : BindLogic)
    (ls : SubmitLogic) (sid : String) (conn : SmppConnection)
    (smsc : Smsc) (rest : List ReadEvent) :
    handle_pdu_parse_error e
      = Pdu.mk e.status (e.sequence_number.getD 1)
          (if e.command_id = some 0x00000002 then
            PduBody.BindTransmitterResp BindRespBody.errorBody
          else PduBody.GenericNack)
    ∧ process_loop lb ls sid conn smsc (ReadEvent.parseErr e true :: rest)
        = ([Event.Wrote (handle_pdu_parse_error e)],
           some (Except.error (ProcessError.PduParseFailure e)),
           conn, smsc) := by
  constructor
  · rcases e with ⟨cid, sq, bd⟩
    rcases cid with _ | n
    · rfl
    · by_cases h : n = 0x00000002
      · subst h; rfl
      · simp [handle_pdu_parse_error, h]
  · simp [process_loop]

theorem handle_bind_pdu_ok_cases (lb : BindLogic) (p : Pdu)
    (conn : SmppConnection) (sid : String) (smsc : Smsc) (resp : Pdu)
    (c2 : SmppConnection) (s2 : Smsc)
    (h : handle_bind_pdu lb p conn sid smsc = Except.ok (resp, c2, s2)) :
    (resp.command_status = ESME_ROK →
      (c2.bound_esme_id).isSome = true ∧ s2 = smsc.add_connection c2)
    ∧ (resp.command_status ≠ ESME_ROK → c2 = conn ∧ s2 = smsc) := by
  rcases p with ⟨cs, sq, pbody⟩
  cases pbody with
  | BindReceiver body =>
      cases hlb : lb body with
      | ok u =>
          simp [handle_bind_pdu, hlb, ESME_ROK] at h
          obtain ⟨h1, h2, h3⟩ := h
          subst h1; subst h2; subst h3
          exact ⟨fun _ => ⟨by simp [SmppConnection.bind], rfl⟩,
            fun hne => absurd rfl hne⟩
      | error e =>
          have hne : e.toPduStatus ≠ ESME_ROK := by cases e <;> decide
          simp [handle_bind_pdu, hlb, hne] at h
          obtain ⟨h1, h2, h3⟩ := h
          subst h1; subst h2; subst h3
          exact ⟨fun habs => absurd habs hne, fun _ => ⟨rfl, rfl⟩⟩
  | BindTransmitter body =>
      cases hlb : lb body with
      | ok u =>
          simp [handle_bind_pdu, hlb, ESME_ROK] at h
          obtain ⟨h1, h2, h3⟩ := h
          subst h1; subst h2; subst h3
          exact ⟨fun _ => ⟨by simp [SmppConnection.bind], rfl⟩,
            fun hne => absurd rfl hne⟩
      | error e =>
          have hne : e.toPduStatus ≠ ESME_ROK := by cases e <;> decide
          simp [handle_bind_pdu, hlb, hne] at h
          obtain ⟨h1, h2, h3⟩ := h
          subst h1; subst h2; subst h3
          exact ⟨fun habs => absurd habs hne, fun _ => ⟨rfl, rfl⟩⟩
  | BindTransceiver body =>
      cases hlb : lb body with
      | ok u =>
          simp [handle_bind_pdu, hlb, ESME_ROK] at h
          obtain ⟨h1, h2, h3⟩ := h
          subst h1; subst h2; subst h3
          exact ⟨fun _ => ⟨by simp [SmppConnection.bind], rfl⟩,
            fun hne => absurd rfl hne⟩
      | error e =>
          have hne : e.toPduStatus ≠ ESME_ROK := by cases e <;> decide
          simp [handle_bind_pdu, hlb, hne] at h
          obtain ⟨h1, h2, h3⟩ := h
          subst h1; subst h2; subst h3
          exact ⟨fun habs => absurd habs hne, fun _ => ⟨rfl, rfl⟩⟩
  | BindReceiverResp b => simp [handle_bind_pdu] at h
  | BindTransmitterResp b => simp [handle_bind_pdu] at h
  | BindTransceiverResp b => simp [handle_bind_pdu] at h
  | EnquireLink => simp [handle_bind_pdu] at h
  | EnquireLinkResp => simp [handle_bind_pdu] at h
  | SubmitSm b => simp [handle_bind_pdu] at h
  | SubmitSmResp b => simp [handle_bind_pdu] at h
  | DeliverSm b => simp [handle_bind_pdu] at h
  | DeliverSmResp => simp [handle_bind_pdu] at h
  | GenericNack => simp [handle_bind_pdu] at h
  | Other cid => simp [handle_bind_pdu] at h

/-- C4: every connection reachable in the hub connections map through any
sequence of hub operations is stored under its own bound EsmeId (so it
carries one); add_connection on a connection without a bound EsmeId
leaves the hub unchanged; and handle_bind_pdu changes nothing unless the
response status is ESME_ROK (a successful logic.bind), in which case the
added connection carries a bound EsmeId. -/
theorem C4_connections_require_successful_bind :
    (∀ (ops : List HubOp) (p : EsmeId × SmppConnection),
        p ∈ (Smsc.start_state.apply_ops ops).connections →
        p.2.bound_esme_id = some p.1)
    ∧ (∀ (s : Smsc) (c : SmppConnection), c.bound_esme_id = none →
        s.add_connection c = s)
    ∧ (∀ (lb : BindLogic) (p : Pdu) (conn : SmppConnection)
        (sid : String) (smsc : Smsc) (resp : Pdu) (c2 : SmppConnection)
        (s2 : Smsc),
        handle_bind_pdu lb p conn sid smsc = Except.ok (resp, c2, s2) →
        (resp.command_status = ESME_ROK →
          (c2.bound_esme_id).isSome = true ∧ s2 = smsc.add_connection c2)
        ∧ (resp.command_status ≠ ESME_ROK → c2 = conn ∧ s2 = smsc)) := by
  refine ⟨?_, ?_, ?_⟩
  · intro ops p hp
    have hinv : conn_inv Smsc.start_state := by
      intro q hq
      simp [Smsc.start_state] at hq
    exact conn_inv_apply_ops hinv ops p hp
  · intro s c h
    simp [Smsc.add_connection, h]
  · intro lb p conn sid smsc resp c2 s2 h
    exact handle_bind_pdu_ok_cases lb p conn sid smsc resp c2 s2 h

/-- C4 witness at concrete inputs. -/
theorem C4_connections_require_successful_bind_witness :
    ((SmppConnection.mk 1 true true (some (EsmeId.mk "a" "t"))
        ).bound_esme_id = some (EsmeId.mk "a" "t"))
    ∧ Smsc.start_state.add_connection (SmppConnection.new 5)
        = Smsc.start_state
    ∧ (SmppConnection.new 7 = SmppConnection.new 7
        ∧ Smsc.start_state = Smsc.start_state) := by
  have h := C4_connections_require_successful_bind
  refine ⟨?_, ?_, ?_⟩
  · exact h.1 [HubOp.AddConnection
      (SmppConnection.mk 1 true true (some (EsmeId.mk "a" "t")))]
      (EsmeId.mk "a" "t",
        SmppConnection.mk 1 true true (some (EsmeId.mk "a" "t")))
      (by simp [Smsc.apply_ops, Smsc.apply_op, Smsc.add_connection,
        Smsc.start_state, insertA, eraseA, List.foldl])
  · exact h.2.1 Smsc.start_state (SmppConnection.new 5) rfl
  · exact (h.2.2 (fun _ => Except.error BindError.IncorrectPassword)
      (Pdu.mk 0 1 (PduBody.BindTransmitter (BindData.mk "a" "pw" "t")))
      (SmppConnection.new 7) "TestServer" Smsc.start_state
      (Pdu.mk ESME_RINVPASWD 1
        (PduBody.BindTransmitterResp BindRespBody.errorBody))
      (SmppConnection.new 7) Smsc.start_state rfl).2 (by decide)

/-- C5: receive_pdu rejects every non deliver_sm body with the unexpected
PDU type error; a deliver_sm without an extractable receipted message id
yields the could-not-extract error; otherwise the looked-up key is
(namespace_id, extracted message id, DR source_addr). -/
theorem C5_receive_pdu_routing (s : Smsc) (ns : String) (pdu : Pdu) :
    ((∀ b, pdu.body ≠ PduBody.DeliverSm b) →
      s.receive_pdu ns pdu =
        Except.error
          "Unexpected PDU type.  Currently we can only handle deliver_sm PDUs.")
    ∧ (∀ b, pdu.body = PduBody.DeliverSm b →
        b.extract_receipted_message_id = none →
        s.receive_pdu ns pdu =
          Except.error "Could not extract message ID from supplied PDU.")
    ∧ (∀ b mid, pdu.body = PduBody.DeliverSm b →
        b.extract_receipted_message_id = some mid →
        s.receive_pdu ns pdu =
          match s.connection_for_message
              (MessageUniqueKey.mk ns mid b.source_addr) with
          | Except.ok conn => Except.ok (conn, pdu)
          | Except.error e => Except.error e) := by
  refine ⟨?_, ?_, ?_⟩
  · intro hnot
    rcases pdu with ⟨cs, sq, pbody⟩
    cases pbody with
    | DeliverSm b => exact absurd rfl (hnot b)
    | BindReceiver b => rfl
    | BindTransmitter b => rfl
    | BindTransceiver b => rfl
    | BindReceiverResp b => rfl
    | BindTransmitterResp b => rfl
    | BindTransceiverResp b => rfl
    | EnquireLink => rfl
    | EnquireLinkResp => rfl
    | SubmitSm b => rfl
    | SubmitSmResp b => rfl
    | DeliverSmResp => rfl
    | GenericNack => rfl
    | Other cid => rfl
  · intro b hb hmid
    rcases pdu with ⟨cs, sq, pbody⟩
    simp only [Pdu.body] at hb
    subst hb
    simp [Smsc.receive_pdu, MessageUniqueKey.from_dr, hmid]
  · intro b mid hb hmid
    rcases pdu with ⟨cs, sq, pbody⟩
    simp only [Pdu.body] at hb
    subst hb
    simp only [Smsc.receive_pdu, MessageUniqueKey.from_dr, hmid]
    rfl

/-- C5 witness at concrete inputs. -/
theorem C5_receive_pdu_routing_witness :
    Smsc.start_state.receive_pdu "ns" (Pdu.mk 0 9 PduBody.EnquireLink)
      = Except.error
          "Unexpected PDU type.  Currently we can only handle deliver_sm PDUs."
    ∧ Smsc.start_state.receive_pdu "ns"
        (Pdu.mk 0 9 (PduBody.DeliverSm (DeliverSmPdu.mk "447" none)))
      = Except.error "Could not extract message ID from supplied PDU."
    ∧ Smsc.start_state.receive_pdu "ns"
        (Pdu.mk 0 9 (PduBody.DeliverSm (DeliverSmPdu.mk "447" (some "mid"))))
      = match Smsc.start_state.connection_for_message
            (MessageUniqueKey.mk "ns" "mid" "447") with
        | Except.ok conn =>
            Except.ok (conn,
              Pdu.mk 0 9 (PduBody.DeliverSm (DeliverSmPdu.mk "447" (some "mid"))))
        | Except.error e => Except.error e := by
  refine ⟨(C5_receive_pdu_routing Smsc.start_state "ns"
      (Pdu.mk 0 9 PduBody.EnquireLink)).1
      (fun b h => PduBody.noConfusion h),
    (C5_receive_pdu_routing Smsc.start_state "ns"
      (Pdu.mk 0 9 (PduBody.DeliverSm (DeliverSmPdu.mk "447" none)))).2.1
      (DeliverSmPdu.mk "447" none) rfl rfl,
    (C5_receive_pdu_routing Smsc.start_state "ns"
      (Pdu.mk 0 9 (PduBody.DeliverSm
        (DeliverSmPdu.mk "447" (some "mid"))))).2.2
      (DeliverSmPdu.mk "447" (some "mid")) "mid" rfl rfl⟩

/-- C6: read_pdu yields None exactly when the socket yields zero bytes
while the read buffer is empty, and yields the NotEnoughBytes parse error
when the socket yields zero bytes while the buffer is non-empty. -/
theorem C6_read_pdu_clean_close (codec : Codec) (buffer : List Nat)
    (chunks : List (List Nat)) :
    (read_pdu codec buffer chunks = Except.ok none ↔
      zeroReadOnEmptyBuffer codec buffer chunks = true)
    ∧ (zeroReadOnNonEmptyBuffer codec buffer chunks = true →
      read_pdu codec buffer chunks =
        Except.error (PduParseError.new PduParseErrorBody.NotEnoughBytes)) := by
  induction chunks generalizing buffer with
  | nil =>
      rcases hp : SmppRead.parse_pdu codec buffer with e | o
      · constructor
        · simp [read_pdu, zeroReadOnEmptyBuffer, hp]
        · intro habs
          simp [zeroReadOnNonEmptyBuffer, hp] at habs
      · rcases o with _ | ⟨pdu, remaining⟩
        · by_cases hb : buffer.isEmpty
          · constructor
            · simp [read_pdu, zeroReadOnEmptyBuffer, hp, hb]
            · intro habs
              simp [zeroReadOnNonEmptyBuffer, hp, hb] at habs
          · constructor
            · simp [read_pdu, zeroReadOnEmptyBuffer, hp, hb]
            · intro _
              simp [read_pdu, hp, hb]
        · constructor
          · simp [read_pdu, zeroReadOnEmptyBuffer, hp]
          · intro habs
            simp [zeroReadOnNonEmptyBuffer, hp] at habs
  | cons c rest ih =>
      rcases hp : SmppRead.parse_pdu codec buffer with e | o
      · constructor
        · simp [read_pdu, zeroReadOnEmptyBuffer, hp]
        · intro habs
          simp [zeroReadOnNonEmptyBuffer, hp] at habs
      · rcases o with _ | ⟨pdu, remaining⟩
        · constructor
          · simp only [read_pdu, zeroReadOnEmptyBuffer, hp]
            exact (ih (buffer ++ c)).1
          · simp only [read_pdu, zeroReadOnNonEmptyBuffer, hp]
            exact (ih (buffer ++ c)).2
        · constructor
          · simp [read_pdu, zeroReadOnEmptyBuffer, hp]
          · intro habs
            simp [zeroReadOnNonEmptyBuffer, hp] at habs

/-- A codec whose check never finds a complete PDU, for exercising the
read loop on concrete inputs. -/
def incompleteCodec : Codec :=
  { check := fun _ => Except.ok CheckOutcome.Incomplete,
    parse := fun _ =>
      Except.error (PduParseError.new (PduParseErrorBody.CodecStatus 8)) }

/-- C6 witness at concrete inputs. -/
theorem C6_read_pdu_clean_close_witness :
    zeroReadOnNonEmptyBuffer incompleteCodec [1] [] = true
    ∧ read_pdu incompleteCodec [1] [] =
        Except.error (PduParseError.new PduParseErrorBody.NotEnoughBytes)
    ∧ (read_pdu incompleteCodec [] [] = Except.ok none ↔
        zeroReadOnEmptyBuffer incompleteCodec [] [] = true) := by
  exact ⟨rfl, (C6_read_pdu_clean_close incompleteCodec [1] []).2 rfl,
    (C6_read_pdu_clean_close incompleteCodec [] []).1⟩

/-- C7: a bind request whose logic.bind returns Err is answered with the
matching resp error body carrying the mapped status (IncorrectPassword
maps to 0x0E, InternalError to 0x08) and the request sequence_number;
the connection keeps its bound_esme_id and the hub is unchanged, and the
processing loop continues with the next read. -/
theorem C7_bind_error_keeps_connection_open (lb : BindLogic)
    (ls : SubmitLogic) (sid : String) (bd : BindData) (e : BindError)
    (p : Pdu) (conn : SmppConnection) (smsc : Smsc)
    (rest : List ReadEvent)
    (hbody : p.body = PduBody.BindReceiver bd ∨
      p.body = PduBody.BindTransmitter bd ∨
      p.body = PduBody.BindTransceiver bd)
    (hlb : lb bd = Except.error e) :
    handle_bind_pdu lb p conn sid smsc
      = Except.ok
          (Pdu.mk e.toPduStatus p.sequence_number
            (bind_error_resp_body p.body), conn, smsc)
    ∧ BindError.IncorrectPassword.toPduStatus = 0x0E
    ∧ BindError.InternalError.toPduStatus = 0x08
    ∧ e.toPduStatus ≠ ESME_ROK
    ∧ process_loop lb ls sid conn smsc (ReadEvent.pduRead p true :: rest)
        = (Event.Wrote
              (Pdu.mk e.toPduStatus p.sequence_number
                (bind_error_resp_body p.body))
            :: (process_loop lb ls sid conn smsc rest).1,
           (process_loop lb ls sid conn smsc rest).2) := by
  have hne : e.toPduStatus ≠ ESME_ROK := by cases e <;> decide
  rcases p with ⟨cs, sq, pbody⟩
  simp only [Pdu.body] at hbody
  have hmain : handle_bind_pdu lb (Pdu.mk cs sq pbody) conn sid smsc
      = Except.ok
          (Pdu.mk e.toPduStatus sq (bind_error_resp_body pbody), conn,
            smsc) := by
    rcases hbody with rfl | rfl | rfl <;>
      simp [handle_bind_pdu, hlb, hne, bind_error_resp_body]
  refine ⟨hmain, rfl, rfl, hne, ?_⟩
  have hpdu : handle_pdu lb ls (Pdu.mk cs sq pbody) conn sid smsc
      = Except.ok
          (Pdu.mk e.toPduStatus sq (bind_error_resp_body pbody), conn,
            smsc) := by
    rcases hbody with rfl | rfl | rfl <;>
      simpa [handle_pdu] using hmain
  simp [process_loop, hpdu]

/-- C7 witness at concrete inputs. -/
theorem C7_bind_error_keeps_connection_open_witness :
    handle_bind_pdu (fun _ => Except.error BindError.IncorrectPassword)
        (Pdu.mk 0 6 (PduBody.BindTransceiver (BindData.mk "e" "pw" "t")))
        (SmppConnection.new 3) "TestServer" Smsc.start_state
      = Except.ok
          (Pdu.mk BindError.IncorrectPassword.toPduStatus 6
            (bind_error_resp_body
              (PduBody.BindTransceiver (BindData.mk "e" "pw" "t"))),
            SmppConnection.new 3, Smsc.start_state)
    ∧ BindError.IncorrectPassword.toPduStatus = 0x0E := by
  have h := C7_bind_error_keeps_connection_open
    (fun _ => Except.error BindError.IncorrectPassword)
    (fun _ => Except.error SubmitSmError.InternalError) "TestServer"
    (BindData.mk "e" "pw" "t") BindError.IncorrectPassword
    (Pdu.mk 0 6 (PduBody.BindTransceiver (BindData.mk "e" "pw" "t")))
    (SmppConnection.new 3) Smsc.start_state []
    (Or.inr (Or.inr rfl)) rfl
  exact ⟨h.1, h.2.1⟩

theorem remove_connection_disconnects (s : Smsc) (c : SmppConnection) :
    (s.remove_connection c).2 = c.disconnect
    ∧ (∀ e, c.bound_esme_id = some e →
        lookupA (s.remove_connection c).1.connections e = none) := by
  rcases hb : c.bound_esme_id with _ | e
  · constructor
    · simp [Smsc.remove_connection, SmppConnection.disconnect, hb]
    · intro e2 he2
      exact Option.noConfusion he2
  · constructor
    · simp [Smsc.remove_connection, SmppConnection.disconnect, hb]
    · intro e2 he2
      obtain rfl := Option.some.inj he2
      simp [Smsc.remove_connection, SmppConnection.disconnect, hb,
        lookupA_eraseA_self]

/-- C8: whenever the processing loop exits (clean close, parse error,
fatal handle_pdu error, or a failed write), process performs exactly one
remove_connection, as its last event: the final connection has both
halves closed and, when it carries a bound EsmeId, the hub entry under
that EsmeId is gone. -/
theorem C8_teardown_removes_connection_once (lb : BindLogic)
    (ls : SubmitLogic) (sid : String) (conn : SmppConnection)
    (smsc : Smsc) (reads : List ReadEvent) (r : Except ProcessError Bool)
    (h : (process_loop lb ls sid conn smsc reads).2.1 = some r) :
    process lb ls sid conn smsc reads
      = ((process_loop lb ls sid conn smsc reads).1
          ++ [Event.RemovedConnection
                (process_loop lb ls sid conn smsc reads).2.2.1.conn_id],
         some r,
         ((process_loop lb ls sid conn smsc
            reads).2.2.2.remove_connection
              (process_loop lb ls sid conn smsc reads).2.2.1).2,
         ((process_loop lb ls sid conn smsc
            reads).2.2.2.remove_connection
              (process_loop lb ls sid conn smsc reads).2.2.1).1)
    ∧ List.countP Event.isRemove (process lb ls sid conn smsc reads).1 = 1
    ∧ (process lb ls sid conn smsc reads).2.2.1.read_open = false
    ∧ (process lb ls sid conn smsc reads).2.2.1.write_open = false
    ∧ (∀ e,
        (process lb ls sid conn smsc reads).2.2.1.bound_esme_id = some e →
        lookupA (process lb ls sid conn smsc reads).2.2.2.connections e
          = none) := by
  have hproc : process lb ls sid conn smsc reads
      = ((process_loop lb ls sid conn smsc reads).1
          ++ [Event.RemovedConnection
                (process_loop lb ls sid conn smsc reads).2.2.1.conn_id],
         some r,
         ((process_loop lb ls sid conn smsc
            reads).2.2.2.remove_connection
              (process_loop lb ls sid conn smsc reads).2.2.1).2,
         ((process_loop lb ls sid conn smsc
            reads).2.2.2.remove_connection
              (process_loop lb ls sid conn smsc reads).2.2.1).1) := by
    simp only [process]
    rw [h]
  have hrm := remove_connection_disconnects
    (process_loop lb ls sid conn smsc reads).2.2.2
    (process_loop lb ls sid conn smsc reads).2.2.1
  have h0 : List.countP Event.isRemove
      (process_loop lb ls sid conn smsc reads).1 = 0 :=
    List.countP_eq_zero.mpr (fun ev hev => by
      rw [process_loop_no_remove lb ls sid reads conn smsc ev hev]
      exact Bool.false_ne_true)
  refine ⟨hproc, ?_, ?_, ?_, ?_⟩
  · rw [hproc]
    simp [List.countP_append, h0, List.countP_cons, Event.isRemove]
  · rw [hproc]
    simp only [hrm.1, SmppConnection.disconnect]
  · rw [hproc]
    simp only [hrm.1, SmppConnection.disconnect]
  · intro e he
    rw [hproc] at he ⊢
    simp only [hrm.1, SmppConnection.disconnect] at he
    exact hrm.2 e he

/-- C8 witness at concrete inputs. -/
theorem C8_teardown_removes_connection_once_witness :
    List.countP Event.isRemove
      (process (fun _ => Except.ok ())
        (fun _ => Except.error SubmitSmError.InternalError) "TestServer"
        (SmppConnection.mk 2 true true (some (EsmeId.mk "a" "t")))
        (Smsc.mk [(EsmeId.mk "a" "t",
          SmppConnection.mk 2 true true (some (EsmeId.mk "a" "t")))] [])
        [ReadEvent.closed]).1 = 1
    ∧ (process (fun _ => Except.ok ())
        (fun _ => Except.error SubmitSmError.InternalError) "TestServer"
        (SmppConnection.mk 2 true true (some (EsmeId.mk "a" "t")))
        (Smsc.mk [(EsmeId.mk "a" "t",
          SmppConnection.mk 2 true true (some (EsmeId.mk "a" "t")))] [])
        [ReadEvent.closed]).2.2.1.read_open = false
    ∧ lookupA
        (process (fun _ => Except.ok ())
          (fun _ => Except.error SubmitSmError.InternalError) "TestServer"
          (SmppConnection.mk 2 true true (some (EsmeId.mk "a" "t")))
          (Smsc.mk [(EsmeId.mk "a" "t",
            SmppConnection.mk 2 true true (some (EsmeId.mk "a" "t")))] [])
          [ReadEvent.closed]).2.2.2.connections (EsmeId.mk "a" "t")
        = none := by
  have h := C8_teardown_removes_connection_once (fun _ => Except.ok ())
    (fun _ => Except.error SubmitSmError.InternalError) "TestServer"
    (SmppConnection.mk 2 true true (some (EsmeId.mk "a" "t")))
    (Smsc.mk [(EsmeId.mk "a" "t",
      SmppConnection.mk 2 true true (some (EsmeId.mk "a" "t")))] [])
    [ReadEvent.closed] (Except.ok false) rfl
  exact ⟨h.2.1, h.2.2.1, h.2.2.2.2 (EsmeId.mk "a" "t") rfl⟩

/-- C9: remove_connection removes whatever entry sits under the
connection bound EsmeId without checking identity: when a second
connection bound to the same EsmeId has replaced the first in the hub and
a routing key points at that EsmeId, removing the first connection
deletes the second connection entry, and the later lookup for the key is
a route miss naming the EsmeId. -/
theorem C9_remove_deletes_replacement_route (conn1 conn2 : SmppConnection)
    (e : EsmeId) (s : Smsc) (key : MessageUniqueKey)
    (h1 : conn1.bound_esme_id = some e)
    (h2 : conn2.bound_esme_id = some e) :
    (((s.add_connection conn1).add_connection conn2).add_message key
        e).connection_for_message key = Except.ok conn2
    ∧ lookupA
        ((((s.add_connection conn1).add_connection conn2).add_message key
          e).remove_connection conn1).1.connections e = none
    ∧ ((((s.add_connection conn1).add_connection conn2).add_message key
          e).remove_connection conn1).1.connection_for_message key
        = Except.error
            ("No client connection found with system_id=" ++ e.system_id
              ++ " system_type=" ++ e.system_type ++ ".") := by
  have hc : (((s.add_connection conn1).add_connection conn2).add_message
      key e).connections
      = insertA e conn2 (insertA e conn1 s.connections) := by
    simp [Smsc.add_connection, h1, h2, Smsc.add_message]
  have hm : (((s.add_connection conn1).add_connection conn2).add_message
      key e).messages = insertA key e s.messages := by
    simp [Smsc.add_connection, h1, h2, Smsc.add_message]
  refine ⟨?_, ?_, ?_⟩
  · simp [Smsc.connection_for_message, hm, hc, lookupA_insertA_self]
  · simp [Smsc.remove_connection, SmppConnection.disconnect, h1, hc,
      lookupA_eraseA_self]
  · simp [Smsc.remove_connection, SmppConnection.disconnect, h1,
      Smsc.connection_for_message, hm, hc, lookupA_insertA_self,
      lookupA_eraseA_self]

/-- C9 witness at concrete inputs. -/
theorem C9_remove_deletes_replacement_route_witness :
    (((Smsc.start_state.add_connection
        (SmppConnection.mk 1 true true (some (EsmeId.mk "c" "t")))
      ).add_connection
        (SmppConnection.mk 2 true true (some (EsmeId.mk "c" "t")))
      ).add_message (MessageUniqueKey.mk "ns" "mid" "447")
        (EsmeId.mk "c" "t")
      ).connection_for_message (MessageUniqueKey.mk "ns" "mid" "447")
      = Except.ok (SmppConnection.mk 2 true true (some (EsmeId.mk "c" "t")))
    ∧ ((((Smsc.start_state.add_connection
        (SmppConnection.mk 1 true true (some (EsmeId.mk "c" "t")))
      ).add_connection
        (SmppConnection.mk 2 true true (some (EsmeId.mk "c" "t")))
      ).add_message (MessageUniqueKey.mk "ns" "mid" "447")
        (EsmeId.mk "c" "t")).remove_connection
        (SmppConnection.mk 1 true true (some (EsmeId.mk "c" "t")))
      ).1.connection_for_message (MessageUniqueKey.mk "ns" "mid" "447")
      = Except.error
          ("No client connection found with system_id=" ++ "c"
            ++ " system_type=" ++ "t" ++ ".") := by
  have h := C9_remove_deletes_replacement_route
    (SmppConnection.mk 1 true true (some (EsmeId.mk "c" "t")))
    (SmppConnection.mk 2 true true (some (EsmeId.mk "c" "t")))
    (EsmeId.mk "c" "t") Smsc.start_state
    (MessageUniqueKey.mk "ns" "mid" "447") rfl rfl
  exact ⟨h.1, h.2.2⟩

/-- C10: whenever handle_pdu returns an error for a parsed PDU the loop
writes one generic_nack carrying ESME_RINVCMDID and the request
sequence_number and then terminates with that error; in particular a
submit_sm on a connection without bound_esme_id errors with
ConnectionNotBoundAsTransmitter and every unrecognised body kind errors
with UnexpectedPduType, both therefore answered by that same nack. -/
theorem C10_handle_pdu_error_nacks_and_closes (lb : BindLogic)
    (ls : SubmitLogic) (sid : String) (p : Pdu)
    (conn : SmppConnection) (smsc : Smsc) (rest : List ReadEvent) :
    (∀ e, handle_pdu lb ls p conn sid smsc = Except.error e →
      process_loop lb ls sid conn smsc (ReadEvent.pduRead p true :: rest)
        = ([Event.Wrote
              (Pdu.mk ESME_RINVCMDID p.sequence_number PduBody.GenericNack)],
           some (Except.error e), conn, smsc))
    ∧ (∀ b, p.body = PduBody.SubmitSm b → conn.bound_esme_id = none →
        handle_pdu lb ls p conn sid smsc
          = Except.error ProcessError.ConnectionNotBoundAsTransmitter)
    ∧ (p.body.is_handled = false →
        handle_pdu lb ls p conn sid smsc
          = Except.error
              (ProcessError.UnexpectedPduType p.command_id
                p.sequence_number)) := by
  refine ⟨?_, ?_, ?_⟩
  · intro e he
    simp [process_loop, he]
  · intro b hb hunbound
    rcases p with ⟨cs, sq, pbody⟩
    simp only [Pdu.body] at hb
    subst hb
    simp [handle_pdu, handle_submit_sm_pdu, hunbound]
  · intro hn
    rcases p with ⟨cs, sq, pbody⟩
    simp only [Pdu.body] at hn
    cases pbody with
    | BindReceiver b => simp [PduBody.is_handled] at hn
    | BindTransmitter b => simp [PduBody.is_handled] at hn
    | BindTransceiver b => simp [PduBody.is_handled] at hn
    | EnquireLink => simp [PduBody.is_handled] at hn
    | SubmitSm b => simp [PduBody.is_handled] at hn
    | BindReceiverResp b => rfl
    | BindTransmitterResp b => rfl
    | BindTransceiverResp b => rfl
    | EnquireLinkResp => rfl
    | SubmitSmResp b => rfl
    | DeliverSm b => rfl
    | DeliverSmResp => rfl
    | GenericNack => rfl
    | Other cid => rfl

/-- C10 witness at concrete inputs. -/
theorem C10_handle_pdu_error_nacks_and_closes_witness :
    process_loop (fun _ => Except.ok ())
      (fun _ => Except.error SubmitSmError.InternalError) "TestServer"
      (SmppConnection.new 4) Smsc.start_state
      (ReadEvent.pduRead (Pdu.mk 0 7 (PduBody.Other 0xFF000000)) true :: [])
      = ([Event.Wrote (Pdu.mk ESME_RINVCMDID 7 PduBody.GenericNack)],
         some (Except.error
           (ProcessError.UnexpectedPduType 0xFF000000 7)),
         SmppConnection.new 4, Smsc.start_state)
    ∧ handle_pdu (fun _ => Except.ok ())
        (fun _ => Except.error SubmitSmError.InternalError)
        (Pdu.mk 0 8 (PduBody.SubmitSm (SubmitSmPdu.mk "447")))
        (SmppConnection.new 4) "TestServer" Smsc.start_state
      = Except.error ProcessError.ConnectionNotBoundAsTransmitter := by
  have h := C10_handle_pdu_error_nacks_and_closes (fun _ => Except.ok ())
    (fun _ => Except.error SubmitSmError.InternalError) "TestServer"
    (Pdu.mk 0 7 (PduBody.Other 0xFF000000)) (SmppConnection.new 4)
    Smsc.start_state []
  have h2 := C10_handle_pdu_error_nacks_and_closes (fun _ => Except.ok ())
    (fun _ => Except.error SubmitSmError.InternalError) "TestServer"
    (Pdu.mk 0 8 (PduBody.SubmitSm (SubmitSmPdu.mk "447")))
    (SmppConnection.new 4) Smsc.start_state []
  exact ⟨h.1 (ProcessError.UnexpectedPduType 0xFF000000 7) rfl,
    h2.2.1 (SubmitSmPdu.mk "447") rfl rfl⟩

/-- C2 witness at concrete inputs. -/
theorem C2_submit_sm_on_bound_connection_witness :
    handle_submit_sm_pdu
        (fun _ => Except.ok (SubmitSmRespPdu.normal "mymessage",
          MessageUniqueKey.mk "mttest" "mymessage" "447111222222"))
        (SubmitSmPdu.mk "447111222222") 3
        (SmppConnection.mk 1 true true (some (EsmeId.mk "esme" "t")))
        Smsc.start_state
      = Except.ok
          (Pdu.mk ESME_ROK 3
            (PduBody.SubmitSmResp (SubmitSmRespPdu.normal "mymessage")),
            Smsc.start_state.add_message
              (MessageUniqueKey.mk "mttest" "mymessage" "447111222222")
              (EsmeId.mk "esme" "t"))
    ∧ lookupA
        (Smsc.start_state.add_message
          (MessageUniqueKey.mk "mttest" "mymessage" "447111222222")
          (EsmeId.mk "esme" "t")).messages
        (MessageUniqueKey.mk "mttest" "mymessage" "447111222222")
      = some (EsmeId.mk "esme" "t") := by
  have h := (C2_submit_sm_on_bound_connection (fun _ => Except.ok ())
    (fun _ => Except.ok (SubmitSmRespPdu.normal "mymessage",
      MessageUniqueKey.mk "mttest" "mymessage" "447111222222"))
    "TestServer" (SubmitSmPdu.mk "447111222222")
    (SmppConnection.mk 1 true true (some (EsmeId.mk "esme" "t")))
    Smsc.start_state (EsmeId.mk "esme" "t")
    (Pdu.mk 0 3 (PduBody.SubmitSm (SubmitSmPdu.mk "447111222222"))) []
    rfl rfl).1 (SubmitSmRespPdu.normal "mymessage")
    (MessageUniqueKey.mk "mttest" "mymessage" "447111222222") rfl
  exact ⟨h.1, h.2.1⟩
